import Mathlib

/-!
Verification of the AndyClaw llama.cpp JNI bridge
(`app/src/main/cpp/llama_bridge.cpp`).

The bridge owns exactly two globals, `g_model` and `g_ctx`, and exposes
four operations: `loadModel`, `unloadModel`, `chatCompletion` and
`chatCompletionStream`.  We embed the bridge shallowly:

* native handles are allocation identifiers (`Nat`); a `Heap` ledger
  tracks which model / context handles the native library considers
  live, so that leak claims are expressible;
* the native library's success or failure on each call is resolved by
  explicit boolean inputs (`mOk` for `llama_model_load_from_file`,
  `cOk` for `llama_init_from_model`), universally quantified in the
  theorems;
* native calls that release resources are also recorded as an event
  list (`NEvent`) so release ordering is expressible;
* the streaming callback object is embedded as the list of callback
  invocations (`CbEvent`) the call performs, in order;
* both preprocessor variants are embedded: the `LLAMA_AVAILABLE` build
  (the main definitions) and the `#else` build (`...NoBackend`).
-/

namespace AndyClaw

/-- Ledger of native objects currently owned by the llama library:
which model handles and context handles have been created and not yet
freed.  `nextId` is a fresh-name supply for the embedding. -/
structure Heap where
  nextId : Nat
  liveModels : List Nat
  liveCtxs : List Nat
deriving DecidableEq, Repr

/-- The bridge's global state: the two file-scope globals of
`llama_bridge.cpp` (`static llama_model *g_model`, `static
llama_context *g_ctx`, both initially `nullptr`), plus the native
heap ledger. -/
structure BridgeState where
  g_model : Option Nat
  g_ctx : Option Nat
  heap : Heap
deriving DecidableEq, Repr

/-- Process start: both globals are `nullptr`, nothing allocated. -/
def initState : BridgeState := ⟨none, none, ⟨0, [], []⟩⟩

/-- Observable calls into the native library that acquire or release
process-wide resources. -/
inductive NEvent where
  | backendInit
  | backendFree
  | freeCtx (id : Nat)
  | freeModel (id : Nat)
deriving DecidableEq, Repr

/-- One invocation of the streaming callback object
(`LlamaStreamCallback`): `onToken`, `onComplete` or `onError`, each
carrying its string argument. -/
inductive CbEvent where
  | onToken (s : String)
  | onComplete (s : String)
  | onError (s : String)
deriving DecidableEq, Repr

/-- `Java_..._loadModel`, `LLAMA_AVAILABLE` build.  Mirrors the C body:
`llama_backend_init()`; `g_model = llama_model_load_from_file(path, params)`
(assigns the result, null on failure, without freeing any previous
model); on null return `JNI_FALSE`; otherwise
`g_ctx = llama_init_from_model(g_model, ctx_params)`; on null free the
newly loaded model, null `g_model`, return `JNI_FALSE`; else return
`JNI_TRUE`.  `mOk` and `cOk` resolve the native library's outcome at
each step. -/
def loadModel (mOk cOk : Bool) (s : BridgeState) : BridgeState × Bool × List NEvent :=
  if mOk then
    let m := s.heap.nextId
    let s1 : BridgeState :=
      { s with g_model := some m,
               heap := { s.heap with nextId := s.heap.nextId + 1,
                                     liveModels := m :: s.heap.liveModels } }
    if cOk then
      let c := s1.heap.nextId
      let s2 : BridgeState :=
        { s1 with g_ctx := some c,
                  heap := { s1.heap with nextId := s1.heap.nextId + 1,
                                         liveCtxs := c :: s1.heap.liveCtxs } }
      (s2, true, [NEvent.backendInit])
    else
      let s2 : BridgeState :=
        { s1 with g_ctx := none, g_model := none,
                  heap := { s1.heap with liveModels := s1.heap.liveModels.erase m } }
      (s2, false, [NEvent.backendInit, NEvent.freeModel m])
  else
    ({ s with g_model := none }, false, [NEvent.backendInit])

/-- `Java_..._loadModel`, `#else` build: logs and returns `JNI_FALSE`
without touching any state. -/
def loadModelNoBackend : Bool := false

/-- `Java_..._unloadModel`, `LLAMA_AVAILABLE` build: `if (g_ctx)` free
it and null it; then `if (g_model)` free it and null it; then
`llama_backend_free()`.  The four cases of the match are exactly the
four ways the two `if`s can resolve; the event list records the
release order (context strictly before model). -/
def unloadModel (s : BridgeState) : BridgeState × List NEvent :=
  match s.g_ctx, s.g_model with
  | some c, some m =>
      ({ s with g_ctx := none, g_model := none,
                heap := { s.heap with liveCtxs := s.heap.liveCtxs.erase c,
                                      liveModels := s.heap.liveModels.erase m } },
       [NEvent.freeCtx c, NEvent.freeModel m, NEvent.backendFree])
  | some c, none =>
      ({ s with g_ctx := none,
                heap := { s.heap with liveCtxs := s.heap.liveCtxs.erase c } },
       [NEvent.freeCtx c, NEvent.backendFree])
  | none, some m =>
      ({ s with g_model := none,
                heap := { s.heap with liveModels := s.heap.liveModels.erase m } },
       [NEvent.freeModel m, NEvent.backendFree])
  | none, none => (s, [NEvent.backendFree])

/-- The `{"error":"Model not loaded"}` literal returned by
`chatCompletion` when `!g_model || !g_ctx`. -/
def errNotLoadedJson : String := "\x7b\"error\":\"Model not loaded\"\x7d"

/-- The `{"error":"llama.cpp not available in this build"}` literal
returned by `chatCompletion` in the `#else` build. -/
def errNoBackendJson : String := "\x7b\"error\":\"llama.cpp not available in this build\"\x7d"

/-- The raw-string response literal of `chatCompletion` (lines 129-142
of `llama_bridge.cpp`), whitespace included, exactly as the C raw
string `R"(...)"` spells it. -/
def chatCompletionResponse : String :=
  "\x7b\n        \"id\": \"local-0\",\n        \"object\": \"chat.completion\",\n        \"model\": \"qwen3-4b\",\n        \"choices\": [\x7b\n            \"index\": 0,\n            \"message\": \x7b\n                \"role\": \"assistant\",\n                \"content\": \"Local model inference is not yet fully implemented.\"\n            \x7d,\n            \"finish_reason\": \"stop\"\n        \x7d],\n        \"usage\": \x7b\"prompt_tokens\": 0, \"completion_tokens\": 0, \"total_tokens\": 0\x7d\n    \x7d"

/-- The raw-string response literal of `chatCompletionStream` (lines
180-192), emitted through `onComplete`. -/
def streamCompletionResponse : String :=
  "\x7b\n        \"id\": \"local-stream-0\",\n        \"object\": \"chat.completion\",\n        \"model\": \"qwen3-4b\",\n        \"choices\": [\x7b\n            \"index\": 0,\n            \"message\": \x7b\n                \"role\": \"assistant\",\n                \"content\": \"Local model streaming is not yet fully implemented.\"\n            \x7d,\n            \"finish_reason\": \"stop\"\n        \x7d]\n    \x7d"

/-- The placeholder text `chatCompletionStream` passes to `onToken`. -/
def streamTokenText : String := "Local model streaming is not yet fully implemented."

/-- `Java_..._chatCompletion`, `LLAMA_AVAILABLE` build: if
`!g_model || !g_ctx`, return the not-loaded error literal; otherwise
copy the request string (never inspecting it) and return the fixed
placeholder response.  No global is assigned. -/
def chatCompletion (_requestJson : String) (s : BridgeState) : String :=
  if s.g_model.isNone || s.g_ctx.isNone then errNotLoadedJson
  else chatCompletionResponse

/-- `Java_..._chatCompletion`, `#else` build: returns the
unavailable-backend error literal unconditionally. -/
def chatCompletionNoBackend (_requestJson : String) : String := errNoBackendJson

/-- `Java_..._chatCompletionStream`, `LLAMA_AVAILABLE` build: if
`!g_model || !g_ctx`, call `onError("Model not loaded")` and return;
otherwise call `onToken` once with the placeholder text, then
`onComplete` once with the stream response literal.  The result is the
ordered list of callback invocations; no global is assigned. -/
def chatCompletionStream (_requestJson : String) (s : BridgeState) : List CbEvent :=
  if s.g_model.isNone || s.g_ctx.isNone then
    [CbEvent.onError "Model not loaded"]
  else
    [CbEvent.onToken streamTokenText, CbEvent.onComplete streamCompletionResponse]

/-- `Java_..._chatCompletionStream`, `#else` build: calls
`onError("llama.cpp not available")` unconditionally. -/
def chatCompletionStreamNoBackend (_requestJson : String) : List CbEvent :=
  [CbEvent.onError "llama.cpp not available"]

/-- One bridge call in a trace.  `load` carries the native library's
outcome at each of its two steps; `chat` and `stream` carry the
request payload. -/
inductive Op where
  | load (mOk cOk : Bool)
  | unload
  | chat (_requestJson : String)
  | stream (_requestJson : String)

/-- State transition of one bridge call.  `chatCompletion` and
`chatCompletionStream` assign no global (their C bodies only read
`g_model` / `g_ctx`), so they leave the state unchanged. -/
def step (op : Op) (s : BridgeState) : BridgeState :=
  match op with
  | Op.load mOk cOk => (loadModel mOk cOk s).1
  | Op.unload => (unloadModel s).1
  | Op.chat _ => s
  | Op.stream _ => s

/-- Run a sequence of bridge calls from a state. -/
def run (ops : List Op) (s : BridgeState) : BridgeState :=
  ops.foldl (fun st op => step op st) s

/-- The paired-lifecycle predicate: `g_model` and `g_ctx` are both
present or both absent. -/
def pairInv (s : BridgeState) : Bool := s.g_model.isSome == s.g_ctx.isSome

/-- JSON values, restricted to the constructs the bridge's payloads
use: non-negative integers, strings without escapes, arrays, objects. -/
inductive Json where
  | num (n : Nat)
  | str (s : String)
  | arr (xs : List Json)
  | obj (fields : List (String × Json))

/-- The opening-brace character, spelled by code so the source file
stays brace-free in literals. -/
def lbrace : Char := Char.ofNat 123

/-- The closing-brace character. -/
def rbrace : Char := Char.ofNat 125

/-- Drop leading JSON whitespace. -/
def skipWs : List Char → List Char
  | [] => []
  | c :: cs => if c = ' ' ∨ c = '\n' ∨ c = '\t' ∨ c = '\r' then skipWs cs else c :: cs

/-- Parse a string body up to the closing quote (no escape sequences
occur in the bridge's payloads). -/
def parseStrBody : List Char → Option (String × List Char)
  | [] => none
  | c :: cs =>
    if c = '"' then some ("", cs)
    else
      match parseStrBody cs with
      | some (t, rest) => some (String.mk (c :: t.data), rest)
      | none => none

/-- Parse a run of decimal digits into a `Nat`. -/
def parseNatAux : List Char → Nat → Nat × List Char
  | [], acc => (acc, [])
  | c :: cs, acc =>
    if c.isDigit then parseNatAux cs (acc * 10 + (c.toNat - 48)) else (acc, c :: cs)

/-- Parsing mode: a whole value, the tail of an array after one
element, or the tail of an object after one field. -/
inductive PMode where
  | value
  | arrTail
  | objTail

/-- Fuel-indexed JSON parser (structural recursion on the fuel, so the
kernel can evaluate it).  In `arrTail` mode it returns `Json.arr` of
the remaining elements; in `objTail` mode, `Json.obj` of the remaining
fields. -/
def parseM : Nat → PMode → List Char → Option (Json × List Char)
  | 0, _, _ => none
  | fuel + 1, PMode.value, input =>
    match skipWs input with
    | [] => none
    | c :: cs =>
      if c = '"' then
        match parseStrBody cs with
        | some (t, rest) => some (Json.str t, rest)
        | none => none
      else if c = '[' then
        match skipWs cs with
        | ']' :: rest => some (Json.arr [], rest)
        | cs2 =>
          match parseM fuel PMode.value cs2 with
          | some (v, rest) =>
            match parseM fuel PMode.arrTail rest with
            | some (Json.arr items, rest2) => some (Json.arr (v :: items), rest2)
            | _ => none
          | none => none
      else if c = lbrace then
        match skipWs cs with
        | [] => none
        | d :: cs2 =>
          if d = rbrace then some (Json.obj [], cs2)
          else if d = '"' then
            match parseStrBody cs2 with
            | some (k, rest) =>
              match skipWs rest with
              | ':' :: rest2 =>
                match parseM fuel PMode.value rest2 with
                | some (v, rest3) =>
                  match parseM fuel PMode.objTail rest3 with
                  | some (Json.obj fs, rest4) => some (Json.obj ((k, v) :: fs), rest4)
                  | _ => none
                | none => none
              | _ => none
            | none => none
          else none
      else if c.isDigit then
        match parseNatAux (c :: cs) 0 with
        | (n, rest) => some (Json.num n, rest)
      else none
  | fuel + 1, PMode.arrTail, input =>
    match skipWs input with
    | ']' :: rest => some (Json.arr [], rest)
    | ',' :: rest =>
      match parseM fuel PMode.value rest with
      | some (v, rest2) =>
        match parseM fuel PMode.arrTail rest2 with
        | some (Json.arr items, rest3) => some (Json.arr (v :: items), rest3)
        | _ => none
      | none => none
    | _ => none
  | fuel + 1, PMode.objTail, input =>
    match skipWs input with
    | [] => none
    | c :: rest =>
      if c = rbrace then some (Json.obj [], rest)
      else if c = ',' then
        match skipWs rest with
        | '"' :: rest2 =>
          match parseStrBody rest2 with
          | some (k, rest3) =>
            match skipWs rest3 with
            | ':' :: rest4 =>
              match parseM fuel PMode.value rest4 with
              | some (v, rest5) =>
                match parseM fuel PMode.objTail rest5 with
                | some (Json.obj fs, rest6) => some (Json.obj ((k, v) :: fs), rest6)
                | _ => none
              | none => none
            | _ => none
          | none => none
        | _ => none
      else none

/-- Parse a complete JSON document: one value, with only whitespace
allowed after it. -/
def Json.parse (s : String) : Option Json :=
  match parseM 300 PMode.value s.data with
  | some (v, rest) => if skipWs rest = [] then some v else none
  | none => none

/-- Field lookup on a JSON object. -/
def Json.getField : Json → String → Option Json
  | Json.obj fs, k => List.lookup k fs
  | _, _ => none

/-- Index lookup on a JSON array. -/
def Json.getIdx : Json → Nat → Option Json
  | Json.arr xs, i => xs.get? i
  | _, _ => none

/-- The JSON structure of `chatCompletionResponse`, written out as a
tree. -/
def chatCompletionJson : Json :=
  Json.obj [
    ("id", Json.str "local-0"),
    ("object", Json.str "chat.completion"),
    ("model", Json.str "qwen3-4b"),
    ("choices", Json.arr [Json.obj [
      ("index", Json.num 0),
      ("message", Json.obj [
        ("role", Json.str "assistant"),
        ("content", Json.str "Local model inference is not yet fully implemented.")]),
      ("finish_reason", Json.str "stop")]]),
    ("usage", Json.obj [
      ("prompt_tokens", Json.num 0),
      ("completion_tokens", Json.num 0),
      ("total_tokens", Json.num 0)])]

/-- The JSON structure of `streamCompletionResponse`. -/
def streamCompletionJson : Json :=
  Json.obj [
    ("id", Json.str "local-stream-0"),
    ("object", Json.str "chat.completion"),
    ("model", Json.str "qwen3-4b"),
    ("choices", Json.arr [Json.obj [
      ("index", Json.num 0),
      ("message", Json.obj [
        ("role", Json.str "assistant"),
        ("content", Json.str "Local model streaming is not yet fully implemented.")]),
      ("finish_reason", Json.str "stop")]])]

/-- The common shape of the bridge's error payloads: a one-key JSON
object carrying a message under the key `error`. -/
def errJsonShape (m : String) : String := "\x7b\"error\":\"" ++ m ++ "\"\x7d"

/-- One step of a JSON access path: an object key or an array index. -/
inductive JPath where
  | key (k : String)
  | idx (i : Nat)

/-- Follow an access path through a JSON value. -/
def jget : Option Json → List JPath → Option Json
  | j, [] => j
  | some j, JPath.key k :: rest => jget (j.getField k) rest
  | some j, JPath.idx i :: rest => jget (j.getIdx i) rest
  | none, _ => none

/-- A load call is benign when the native model-load step succeeds or
no context is currently held: exactly the situations in which the C
body's unconditional `g_model = llama_model_load_from_file(...)`
assignment cannot orphan a live context. -/
def opSafe (s : BridgeState) : Op → Bool
  | Op.load mOk _ => mOk || s.g_ctx.isNone
  | _ => true

/-- Every call of the sequence is benign in the state it runs in. -/
def safeOps : BridgeState → List Op → Bool
  | _, [] => true
  | s, op :: rest => opSafe s op && safeOps (step op s) rest

/-- The callback trace is a (possibly empty) run of `onToken` calls
followed by exactly one `onComplete`. -/
def tokensThenComplete : List CbEvent → Bool
  | [CbEvent.onComplete _] => true
  | CbEvent.onToken _ :: rest => tokensThenComplete rest
  | _ => false

/-- The callback trace is exactly one `onError`. -/
def singleErrorTrace : List CbEvent → Bool
  | [CbEvent.onError _] => true
  | _ => false

/-- Recognizer for `onToken` events. -/
def isTok : CbEvent → Bool
  | CbEvent.onToken _ => true
  | _ => false

/-- Recognizer for `onComplete` events. -/
def isDone : CbEvent → Bool
  | CbEvent.onComplete _ => true
  | _ => false

/-- Recognizer for `onError` events. -/
def isErr : CbEvent → Bool
  | CbEvent.onError _ => true
  | _ => false

/-- No context-release call occurs after a model-release call in the
native event list. -/
def noCtxFreeAfterModelFree : List NEvent → Bool
  | [] => true
  | NEvent.freeModel _ :: rest =>
      rest.all fun e =>
        match e with
        | NEvent.freeCtx _ => false
        | _ => true
  | _ :: rest => noCtxFreeAfterModelFree rest

/-- A benign call preserves the paired-lifecycle predicate. -/
theorem pairInv_step (op : Op) (s : BridgeState) (hp : pairInv s = true)
    (hs : opSafe s op = true) : pairInv (step op s) = true := by
  cases op with
  | load mOk cOk =>
    cases mOk with
    | false =>
      simp only [opSafe, Bool.false_or] at hs
      rcases hg : s.g_ctx with _ | c
      · simp [step, loadModel, pairInv, hg]
      · rw [hg] at hs; simp at hs
    | true =>
      cases cOk <;> simp [step, loadModel, pairInv]
  | unload =>
    rcases hc : s.g_ctx with _ | c <;> rcases hm : s.g_model with _ | m <;>
      simp [step, unloadModel, pairInv, hc, hm]
  | chat _ => exact hp
  | stream _ => exact hp

/-- Benign sequences preserve the paired-lifecycle predicate. -/
theorem pairInv_run (ops : List Op) :
    ∀ s : BridgeState, pairInv s = true → safeOps s ops = true →
      pairInv (run ops s) = true := by
  induction ops with
  | nil => intro s hp _; exact hp
  | cons op rest ih =>
    intro s hp hs
    simp only [safeOps, Bool.and_eq_true] at hs
    exact ih (step op s) (pairInv_step op s hp hs.1) hs.2

/-- Claim C1, counterexample.  A successful load followed by a second
load whose model-load step fails breaks the paired-lifecycle
invariant: the failed `llama_model_load_from_file` return value is
assigned over `g_model`, so `g_model` becomes null while `g_ctx` still
holds the context of the first load. -/
theorem C1_counterexample :
    (loadModel true true initState).2.1 = true
  ∧ pairInv (run [Op.load true true, Op.load false false] initState) = false
  ∧ (run [Op.load true true, Op.load false false] initState).g_model = none
  ∧ (run [Op.load true true, Op.load false false] initState).g_ctx = some 1 := by
  decide

/-- Claim C1 (amended): starting at process start, across every
sequence of loadModel, unloadModel, chatCompletion and
chatCompletionStream calls in which loadModel is never invoked with a
failing model-load step while a context handle is present, `g_model`
and `g_ctx` are always both present or both absent. -/
theorem C1_pairedLifecycle (ops : List Op) (h : safeOps initState ops = true) :
    pairInv (run ops initState) = true :=
  pairInv_run ops initState rfl h

/-- Claim C1, witness: a concrete benign sequence. -/
theorem C1_pairedLifecycle_witness :
    safeOps initState [Op.load true true, Op.unload] = true
  ∧ pairInv (run [Op.load true true, Op.unload] initState) = true :=
  ⟨by decide, C1_pairedLifecycle [Op.load true true, Op.unload] (by decide)⟩

/-- Claim C2, counterexample.  A loadModel call that fails at the
model-load step while a model/context pair is loaded does not leave
global state as it was before the call: `g_model` goes from `some 0`
to `none`, and the previously loaded model stays live in the native
heap with no global referencing it (a leak). -/
theorem C2_counterexample :
    (loadModel false false (run [Op.load true true] initState)).2.1 = false
  ∧ (loadModel false false (run [Op.load true true] initState)).1
      ≠ run [Op.load true true] initState
  ∧ (run [Op.load true true] initState).g_model = some 0
  ∧ (loadModel false false (run [Op.load true true] initState)).1.g_model = none
  ∧ (loadModel false false (run [Op.load true true] initState)).1.heap.liveModels = [0] := by
  decide

/-- Claim C2 (amended): every loadModel call made while nothing is
loaded that fails at either step leaves both globals absent, as they
were, and leaves the sets of live native model and context handles
unchanged — in particular the model loaded just before a failed
context creation is freed, not leaked. -/
theorem C2_loadFailureAtomic (mOk cOk : Bool) (s : BridgeState)
    (_hm : s.g_model = none) (hc : s.g_ctx = none)
    (hfail : (loadModel mOk cOk s).2.1 = false) :
    (loadModel mOk cOk s).1.g_model = none
  ∧ (loadModel mOk cOk s).1.g_ctx = none
  ∧ (loadModel mOk cOk s).1.heap.liveModels = s.heap.liveModels
  ∧ (loadModel mOk cOk s).1.heap.liveCtxs = s.heap.liveCtxs := by
  cases mOk with
  | false => simp [loadModel, hc]
  | true =>
    cases cOk with
    | false => simp [loadModel, hc, List.erase_cons_head]
    | true => simp [loadModel] at hfail

/-- Claim C2, witness: a failed context creation from the unloaded
state keeps the live-model ledger empty. -/
theorem C2_loadFailureAtomic_witness :
    initState.g_model = none
  ∧ (loadModel true false initState).2.1 = false
  ∧ (loadModel true false initState).1.heap.liveModels = initState.heap.liveModels :=
  ⟨rfl, by decide,
    (C2_loadFailureAtomic true false initState rfl rfl (by decide)).2.2.1⟩

/-- Claim C3: chatCompletionStream with no model/context pair loaded
invokes onError exactly once with the fixed message "Model not loaded"
and nothing else — no onToken, no onComplete. -/
theorem C3_streamNotLoaded (req : String) (s : BridgeState)
    (h : s.g_model = none ∨ s.g_ctx = none) :
    chatCompletionStream req s = [CbEvent.onError "Model not loaded"]
  ∧ (chatCompletionStream req s).countP isErr = 1
  ∧ (chatCompletionStream req s).countP isTok = 0
  ∧ (chatCompletionStream req s).countP isDone = 0 := by
  have hcond : (s.g_model.isNone || s.g_ctx.isNone) = true := by
    rcases h with h | h <;> simp [h]
  have htr : chatCompletionStream req s = [CbEvent.onError "Model not loaded"] := by
    simp [chatCompletionStream, hcond]
  refine ⟨htr, ?_, ?_, ?_⟩ <;> rw [htr] <;> rfl

/-- Claim C3, witness: streaming from the fresh state. -/
theorem C3_streamNotLoaded_witness :
    chatCompletionStream "" initState = [CbEvent.onError "Model not loaded"]
  ∧ (chatCompletionStream "" initState).countP isTok = 0 :=
  ⟨(C3_streamNotLoaded "" initState (Or.inl rfl)).1,
   (C3_streamNotLoaded "" initState (Or.inl rfl)).2.2.1⟩

/-- Claim C4: chatCompletion with no model/context pair loaded returns
the fixed payload `{"error":"Model not loaded"}` — failure is encoded
in the returned string, the call is total, and the global state is
unchanged. -/
theorem C4_chatNotLoaded (req : String) (s : BridgeState)
    (h : s.g_model = none ∨ s.g_ctx = none) :
    chatCompletion req s = errNotLoadedJson
  ∧ Json.parse (chatCompletion req s)
      = some (Json.obj [("error", Json.str "Model not loaded")])
  ∧ step (Op.chat req) s = s := by
  have hcond : (s.g_model.isNone || s.g_ctx.isNone) = true := by
    rcases h with h | h <;> simp [h]
  have hres : chatCompletion req s = errNotLoadedJson := by
    simp [chatCompletion, hcond]
  exact ⟨hres, by rw [hres]; rfl, rfl⟩

/-- Claim C4, witness: blocking completion from the fresh state. -/
theorem C4_chatNotLoaded_witness :
    chatCompletion "" initState = errNotLoadedJson
  ∧ Json.parse (chatCompletion "" initState)
      = some (Json.obj [("error", Json.str "Model not loaded")]) :=
  ⟨(C4_chatNotLoaded "" initState (Or.inl rfl)).1,
   (C4_chatNotLoaded "" initState (Or.inl rfl)).2.1⟩

/-- Claim C5: in every state and for every request, in both builds,
the callback trace of a streaming call is exactly either a run of
onToken calls followed by one onComplete, or a single onError; in
particular no onToken ever follows an onComplete or onError. -/
theorem C5_callbackOrdering (req : String) (s : BridgeState) :
    (tokensThenComplete (chatCompletionStream req s)
      || singleErrorTrace (chatCompletionStream req s)) = true
  ∧ (tokensThenComplete (chatCompletionStreamNoBackend req)
      || singleErrorTrace (chatCompletionStreamNoBackend req)) = true := by
  refine ⟨?_, rfl⟩
  unfold chatCompletionStream
  split <;> rfl

/-- Claim C6: chatCompletionStream with a model/context pair loaded
invokes onToken exactly once with the fixed placeholder text, then
onComplete exactly once with the fixed final payload; onError is not
invoked. -/
theorem C6_streamLoaded (req : String) (s : BridgeState)
    (hm : s.g_model.isSome = true) (hc : s.g_ctx.isSome = true) :
    chatCompletionStream req s
      = [CbEvent.onToken streamTokenText,
         CbEvent.onComplete streamCompletionResponse]
  ∧ (chatCompletionStream req s).countP isTok = 1
  ∧ (chatCompletionStream req s).countP isDone = 1
  ∧ (chatCompletionStream req s).countP isErr = 0 := by
  obtain ⟨m, hms⟩ := Option.isSome_iff_exists.mp hm
  obtain ⟨c, hcs⟩ := Option.isSome_iff_exists.mp hc
  have htr : chatCompletionStream req s
      = [CbEvent.onToken streamTokenText,
         CbEvent.onComplete streamCompletionResponse] := by
    simp [chatCompletionStream, hms, hcs]
  refine ⟨htr, ?_, ?_, ?_⟩ <;> rw [htr] <;> rfl

/-- Claim C6, witness: streaming after a concrete successful load. -/
theorem C6_streamLoaded_witness :
    chatCompletionStream "" (run [Op.load true true] initState)
      = [CbEvent.onToken streamTokenText,
         CbEvent.onComplete streamCompletionResponse] :=
  (C6_streamLoaded "" (run [Op.load true true] initState)
    (by decide) (by decide)).1

/-- Claim C7: chatCompletion with a model/context pair loaded accepts
any request string and returns the fixed payload, which parses as JSON
with choices[0].message.role = "assistant", a non-null content string
saying inference is not yet implemented, finish_reason = "stop", and
all three usage counts equal to zero. -/
theorem C7_chatLoaded (req : String) (s : BridgeState)
    (hm : s.g_model.isSome = true) (hc : s.g_ctx.isSome = true) :
    chatCompletion req s = chatCompletionResponse
  ∧ Json.parse (chatCompletion req s) = some chatCompletionJson
  ∧ jget (some chatCompletionJson)
      [JPath.key "choices", JPath.idx 0, JPath.key "message", JPath.key "role"]
      = some (Json.str "assistant")
  ∧ jget (some chatCompletionJson)
      [JPath.key "choices", JPath.idx 0, JPath.key "message", JPath.key "content"]
      = some (Json.str "Local model inference is not yet fully implemented.")
  ∧ jget (some chatCompletionJson)
      [JPath.key "choices", JPath.idx 0, JPath.key "finish_reason"]
      = some (Json.str "stop")
  ∧ jget (some chatCompletionJson) [JPath.key "usage", JPath.key "prompt_tokens"]
      = some (Json.num 0)
  ∧ jget (some chatCompletionJson) [JPath.key "usage", JPath.key "completion_tokens"]
      = some (Json.num 0)
  ∧ jget (some chatCompletionJson) [JPath.key "usage", JPath.key "total_tokens"]
      = some (Json.num 0) := by
  obtain ⟨m, hms⟩ := Option.isSome_iff_exists.mp hm
  obtain ⟨c, hcs⟩ := Option.isSome_iff_exists.mp hc
  have hres : chatCompletion req s = chatCompletionResponse := by
    simp [chatCompletion, hms, hcs]
  exact ⟨hres, by rw [hres]; rfl, rfl, rfl, rfl, rfl, rfl, rfl⟩

/-- Claim C7, witness: blocking completion after a concrete successful
load. -/
theorem C7_chatLoaded_witness :
    chatCompletion "x" (run [Op.load true true] initState) = chatCompletionResponse
  ∧ Json.parse (chatCompletion "x" (run [Op.load true true] initState))
      = some chatCompletionJson :=
  ⟨(C7_chatLoaded "x" (run [Op.load true true] initState) (by decide) (by decide)).1,
   (C7_chatLoaded "x" (run [Op.load true true] initState) (by decide) (by decide)).2.1⟩

/-- Claim C8: unloadModel from a state with nothing loaded performs no
release and leaves the state unchanged; a second unloadModel directly
after any unloadModel is such a no-op; after any unloadModel call both
globals are absent; and no context release ever follows a model
release (the context is freed first). -/
theorem C8_unloadIdempotent (s : BridgeState) :
    (s.g_model = none ∧ s.g_ctx = none →
       unloadModel s = (s, [NEvent.backendFree]))
  ∧ unloadModel (unloadModel s).1 = ((unloadModel s).1, [NEvent.backendFree])
  ∧ (unloadModel s).1.g_model = none
  ∧ (unloadModel s).1.g_ctx = none
  ∧ noCtxFreeAfterModelFree (unloadModel s).2 = true := by
  rcases s with ⟨gm, gc, h⟩
  cases gm <;> cases gc <;>
    simp [unloadModel, noCtxFreeAfterModelFree]

/-- Claim C8, witness: double unload from the fresh state. -/
theorem C8_unloadIdempotent_witness :
    unloadModel initState = (initState, [NEvent.backendFree])
  ∧ (unloadModel initState).1.g_model = none :=
  ⟨(C8_unloadIdempotent initState).1 ⟨rfl, rfl⟩,
   (C8_unloadIdempotent initState).2.2.1⟩

/-- Claim C9, counterexample.  The unavailable-backend build does not
surface the condition under the same message as the not-loaded case:
the blocking payloads and the onError arguments both differ
("llama.cpp not available in this build" vs "Model not loaded", and
"llama.cpp not available" vs "Model not loaded"). -/
theorem C9_counterexample :
    chatCompletionNoBackend "" ≠ chatCompletion "" initState
  ∧ chatCompletionStreamNoBackend "" ≠ chatCompletionStream "" initState := by
  constructor <;> decide

/-- Claim C9 (amended): the unavailable-backend build surfaces the
condition through the same channels and shapes as the not-loaded case
— an error-keyed JSON payload on the blocking path and a single
onError invocation on the streaming path — but under a different,
backend-specific message rather than one shared message. -/
theorem C9_unavailableBackend (req : String) (s : BridgeState)
    (h : s.g_model = none ∨ s.g_ctx = none) :
    chatCompletionNoBackend req = errJsonShape "llama.cpp not available in this build"
  ∧ chatCompletion req s = errJsonShape "Model not loaded"
  ∧ chatCompletionStreamNoBackend req = [CbEvent.onError "llama.cpp not available"]
  ∧ chatCompletionStream req s = [CbEvent.onError "Model not loaded"]
  ∧ ("llama.cpp not available in this build" : String) ≠ "Model not loaded"
  ∧ ("llama.cpp not available" : String) ≠ "Model not loaded" := by
  have hcond : (s.g_model.isNone || s.g_ctx.isNone) = true := by
    rcases h with h | h <;> simp [h]
  refine ⟨?_, ?_, rfl, ?_, by decide, by decide⟩
  · show errNoBackendJson = errJsonShape "llama.cpp not available in this build"
    decide
  · have : chatCompletion req s = errNotLoadedJson := by
      simp [chatCompletion, hcond]
    rw [this]; decide
  · simp [chatCompletionStream, hcond]

/-- Claim C9, witness: both builds probed from the fresh state. -/
theorem C9_unavailableBackend_witness :
    chatCompletionNoBackend "" = errJsonShape "llama.cpp not available in this build"
  ∧ chatCompletion "" initState = errJsonShape "Model not loaded" :=
  ⟨(C9_unavailableBackend "" initState (Or.inl rfl)).1,
   (C9_unavailableBackend "" initState (Or.inl rfl)).2.1⟩

/-- Claim C10: for a fixed state, the blocking response and the
streaming callback trace are identical for any two request strings, in
both builds: the bridge never inspects the request payload. -/
theorem C10_requestIndependence (s : BridgeState) (r1 r2 : String) :
    chatCompletion r1 s = chatCompletion r2 s
  ∧ chatCompletionStream r1 s = chatCompletionStream r2 s
  ∧ chatCompletionNoBackend r1 = chatCompletionNoBackend r2
  ∧ chatCompletionStreamNoBackend r1 = chatCompletionStreamNoBackend r2 :=
  ⟨rfl, rfl, rfl, rfl⟩

end AndyClaw

